import Mathlib

/-!
Shallow embedding of `src/haystack/preview/components/retrievers/memory.py`
(class `MemoryRetriever`) and of the external collaborators it uses
(the in-memory document store capability and the store-type registry),
together with theorems settling the specification claims about it.

Python `Optional` values are modelled with `Option`, Python `dict`
records with Lean structures whose optional keys are `Option` fields,
exceptions with `Except`, and Python `int` with `Int`.
-/

/-- Filters narrow the search space; Python `Dict[str, Any]` is modelled as an
association list of string keys to string values (the retriever never inspects
it, only passes it through). -/
abbrev Filters := List (String × String)

/-- A scored document as produced by the store's BM25 retrieval. The retriever
passes documents through unmodified, so only the shape matters; the float score
is modelled as an optional integer stand-in. -/
structure Document where
  content : String
  score : Option Int
deriving DecidableEq, Repr

/-- Modelled from the spec: the external Document Store capability
(`MemoryDocumentStore` is not part of this fragment). It exposes
`bm25_retrieval(query, filters, top_k, scale_score)` returning an ordered
sequence of scored documents. The behaviour is kept fully abstract as a
function. -/
structure MemoryDocumentStore where
  bm25_retrieval : String → Option Filters → Int → Bool → List Document

/-- Modelled from the spec: the serialized form of a store. The store's own
`to_dict`/`from_dict` are outside this fragment; the spec requires that a
reconstructed store be behaviorally equivalent, so the serialized record
carries a type name and the store's retrieval behaviour. -/
structure SerializedStore where
  type : String
  store : MemoryDocumentStore

/-- Modelled from the spec: the store's `to_dict`, emitting its type name and
its retrievable state. -/
def MemoryDocumentStore.to_dict (s : MemoryDocumentStore) : SerializedStore :=
  { type := "MemoryDocumentStore", store := s }

/-- Modelled from the spec: the store-type registry keyed by type name, mapping
a name to that store type's `from_dict` reconstruction function. Looking up a
missing key is a `KeyError` in Python, hence `Option` here. -/
def registry (t : String) : Option (SerializedStore → MemoryDocumentStore) :=
  if t = "MemoryDocumentStore" then some (fun d => d.store) else none

/-- The value found under the `store` key of a serialized component:
Python `None`, a deferred store name (a string), or a nested serialized
store (a dict). -/
inductive StoreField where
  | null : StoreField
  | name : String → StoreField
  | serialized : SerializedStore → StoreField

/-- True exactly when the store field is a nested serialized store. -/
def StoreField.isSerialized : StoreField → Bool
  | .serialized _ => true
  | _ => false

/-- The `init_parameters` sub-record of a serialized component. -/
structure InitParams where
  filters : Option Filters
  top_k : Int
  scale_score : Bool

/-- A serialized component record, as produced by `to_dict` and consumed by
`from_dict`. `from_dict` accepts arbitrary records, so the keys it looks up
defensively (`type`, `init_parameters`) are optional. -/
structure ComponentData where
  hash : Option Nat
  type : Option String
  store : StoreField
  init_parameters : Option InitParams

/-- The state of a `MemoryRetriever` instance: the three instance defaults set
by `__init__`, plus the two store-binding slots `_store` and `_store_name`
inherited from `StoreAwareMixin` (both unset at construction; the orchestration
layer may set either). -/
structure MemoryRetriever where
  filters : Option Filters
  top_k : Int
  scale_score : Bool
  _store : Option MemoryDocumentStore
  _store_name : Option String

/-- Embedding of `MemoryRetriever.__init__` (memory.py lines 19-34): rejects
`top_k <= 0` with a `ValueError` carrying the offending value, otherwise
records the three defaults; no store is bound at construction. -/
def MemoryRetriever.init (filters : Option Filters) (top_k : Int)
    (scale_score : Bool) : Except String MemoryRetriever :=
  if top_k ≤ 0 then
    .error ("top_k must be > 0, but got " ++ toString top_k)
  else
    .ok { filters := filters, top_k := top_k, scale_score := scale_score,
          _store := none, _store_name := none }

/-- Embedding of `MemoryRetriever.to_dict` (memory.py lines 36-47). The local
`store` variable starts as `None`, is overwritten with the serialized store if
`self._store` is truthy, and is then overwritten again with the name if
`self._store_name` is truthy (an empty string is falsy in Python). -/
def MemoryRetriever.to_dict (r : MemoryRetriever) (hsh : Nat) : ComponentData :=
  let store0 : StoreField := .null
  let store1 : StoreField :=
    match r._store with
    | some st => .serialized st.to_dict
    | none => store0
  let store2 : StoreField :=
    match r._store_name with
    | some n => if n = "" then store1 else .name n
    | none => store1
  { hash := some hsh,
    type := some "MemoryRetriever",
    store := store2,
    init_parameters := some { filters := r.filters, top_k := r.top_k,
                              scale_score := r.scale_score } }

/-- The errors `from_dict` can surface: a `ComponentDeserializationError`, a
`ValueError` escaping the constructor, or a `KeyError` from a missing dict or
registry key. -/
inductive FromDictError where
  | deserialization : String → FromDictError
  | valueError : String → FromDictError
  | keyError : String → FromDictError

/-- True exactly when the result is a `ComponentDeserializationError`. -/
def isDeserializationError : Except FromDictError MemoryRetriever → Bool
  | .error (.deserialization _) => true
  | _ => false

/-- Embedding of `MemoryRetriever.from_dict` (memory.py lines 49-64): fails
with a deserialization error if `type` is missing or differs from the class
name; rebuilds the component through the constructor; reconstructs and binds
the store only when the `store` field is a nested record, via the registry. -/
def MemoryRetriever.from_dict (data : ComponentData) :
    Except FromDictError MemoryRetriever :=
  match data.type with
  | none => .error (.deserialization "Missing \x27type\x27 in component serialization data")
  | some t =>
    if t ≠ "MemoryRetriever" then
      .error (.deserialization
        ("Component \x27" ++ t ++ "\x27 can\x27t be deserialized as \x27MemoryRetriever\x27"))
    else
      match data.init_parameters with
      | none => .error (.keyError "init_parameters")
      | some p =>
        match MemoryRetriever.init p.filters p.top_k p.scale_score with
        | .error msg => .error (.valueError msg)
        | .ok comp =>
          match data.store with
          | .serialized sd =>
            match registry sd.type with
            | none => .error (.keyError sd.type)
            | some fd => .ok { comp with _store := some (fd sd) }
          | _ => .ok comp

/-- The record returned by `run`: one ranked list of documents per query. -/
structure RunOutput where
  documents : List (List Document)
deriving DecidableEq

/-- Effective filters for a call: the per-call override when provided,
otherwise the instance default (memory.py lines 90-91). -/
def effectiveFilters (r : MemoryRetriever) (filters : Option Filters) :
    Option Filters :=
  match filters with
  | none => r.filters
  | some x => some x

/-- Effective top_k for a call: the per-call override when provided, otherwise
the instance default (memory.py lines 92-93). -/
def effectiveTopK (r : MemoryRetriever) (top_k : Option Int) : Int :=
  match top_k with
  | none => r.top_k
  | some x => x

/-- Effective scale_score for a call: the per-call override when provided,
otherwise the instance default (memory.py lines 94-95). -/
def effectiveScaleScore (r : MemoryRetriever) (scale_score : Option Bool) :
    Bool :=
  match scale_score with
  | none => r.scale_score
  | some x => x

/-- Embedding of `MemoryRetriever.run` (memory.py lines 66-100): fails if no
store is bound; resolves each omitted per-call parameter to the instance
default; then, for each query in input order, collects the list returned by
the store's BM25 retrieval with the effective parameters. -/
def MemoryRetriever.run (r : MemoryRetriever) (queries : List String)
    (filters : Option Filters) (top_k : Option Int) (scale_score : Option Bool) :
    Except String RunOutput :=
  match r._store with
  | none =>
    .error "MemoryRetriever needs a store to run: set the store instance to the self.store attribute"
  | some st =>
    let f := effectiveFilters r filters
    let k := effectiveTopK r top_k
    let s := effectiveScaleScore r scale_score
    .ok { documents := queries.map (fun q => st.bm25_retrieval q f k s) }

/-! Concrete fixtures used by witnesses and counterexamples. -/

/-- A concrete store whose BM25 retrieval echoes the query and the effective
top_k into the returned document, making parameter pass-through observable. -/
def testStore : MemoryDocumentStore :=
  { bm25_retrieval := fun q _ k _ => [{ content := q, score := some k }] }

/-- A retriever with a concrete store bound and no deferred store name. -/
def boundRetriever : MemoryRetriever :=
  { filters := some [("lang", "PHP")], top_k := 10, scale_score := true,
    _store := some testStore, _store_name := none }

/-- A retriever with no store bound. -/
def noStoreRetriever : MemoryRetriever :=
  { filters := none, top_k := 10, scale_score := true,
    _store := none, _store_name := none }

/-- A retriever with both a concrete store bound and a deferred store name. -/
def bothRetriever : MemoryRetriever :=
  { filters := none, top_k := 10, scale_score := true,
    _store := some testStore, _store_name := some "docstore" }

/-- C1: with a store bound, `run` returns a record whose `documents` field is
exactly the list of per-query results of the store's `bm25_retrieval` with the
effective parameters, one list per query, in input order, passed through
unmodified (the `List.map` form gives length n, the i-th entry for query qi,
and no deduplication, reordering, or cross-query aggregation). -/
theorem run_returns_one_bm25_list_per_query (r : MemoryRetriever)
    (st : MemoryDocumentStore) (h : r._store = some st) (queries : List String)
    (filters : Option Filters) (top_k : Option Int) (scale_score : Option Bool) :
    r.run queries filters top_k scale_score =
      .ok { documents := queries.map (fun q =>
        st.bm25_retrieval q (effectiveFilters r filters) (effectiveTopK r top_k)
          (effectiveScaleScore r scale_score)) } := by
  simp [MemoryRetriever.run, h]

/-- Witness for C1 at a concrete two-query call. -/
theorem run_returns_one_bm25_list_per_query_witness :
    boundRetriever.run ["PHP", "Java"] none none none =
      .ok { documents := [[{ content := "PHP", score := some 10 }],
                          [{ content := "Java", score := some 10 }]] } :=
  (run_returns_one_bm25_list_per_query boundRetriever testStore rfl
    ["PHP", "Java"] none none none).trans rfl

/-- C3: for every call, with the three per-call parameters arbitrary and
independent (so all mixed provided/omitted patterns are covered), each
parameter that is explicitly provided is the value passed to the store for
every query of the call, and each omitted one is replaced by the instance
default captured at construction — never by a store-side default: the store
only ever receives the values resolved here. -/
theorem run_override_and_default_precedence (r : MemoryRetriever)
    (st : MemoryDocumentStore) (h : r._store = some st) (queries : List String)
    (fo : Option Filters) (ko : Option Int) (so : Option Bool) :
    r.run queries fo ko so =
      .ok { documents := queries.map (fun q => st.bm25_retrieval q
        (match fo with | some f => some f | none => r.filters)
        (match ko with | some k => k | none => r.top_k)
        (match so with | some s => s | none => r.scale_score)) } := by
  cases fo <;> cases ko <;> cases so <;>
    simp [MemoryRetriever.run, h, effectiveFilters, effectiveTopK,
      effectiveScaleScore]

/-- Witness for C3 at three call shapes: the mixed pattern of the repository's
own pipeline test (top_k provided, filters and scale_score omitted), all three
provided, and all three omitted. -/
theorem run_override_and_default_precedence_witness :
    (boundRetriever.run ["Java"] none (some 2) none =
      .ok { documents := [[{ content := "Java", score := some 2 }]] })
    ∧ (boundRetriever.run ["x"] (some []) (some 3) (some false) =
      .ok { documents := [[{ content := "x", score := some 3 }]] })
    ∧ (boundRetriever.run ["x"] none none none =
      .ok { documents := [[{ content := "x", score := some 10 }]] }) :=
  ⟨(run_override_and_default_precedence boundRetriever testStore rfl
      ["Java"] none (some 2) none).trans rfl,
   (run_override_and_default_precedence boundRetriever testStore rfl
      ["x"] (some []) (some 3) (some false)).trans rfl,
   (run_override_and_default_precedence boundRetriever testStore rfl
      ["x"] none none none).trans rfl⟩

/-- C4: construction with `top_k <= 0` fails with a ValueError whose message
contains the offending value; with `top_k > 0` it succeeds and records the
value as the instance default. -/
theorem init_validates_top_k (f : Option Filters) (k : Int) (s : Bool) :
    (k ≤ 0 → MemoryRetriever.init f k s =
      .error ("top_k must be > 0, but got " ++ toString k))
    ∧ (0 < k → MemoryRetriever.init f k s =
      .ok { filters := f, top_k := k, scale_score := s,
            _store := none, _store_name := none }) := by
  constructor
  · intro h; simp [MemoryRetriever.init, h]
  · intro h
    unfold MemoryRetriever.init
    rw [if_neg (by omega)]

/-- Witness for C4 at top_k = -2 (failure) and top_k = 5 (success). -/
theorem init_validates_top_k_witness :
    ((-2 : Int) ≤ 0 ∧ MemoryRetriever.init none (-2) true =
      .error ("top_k must be > 0, but got " ++ toString (-2 : Int)))
    ∧ ((0 : Int) < 5 ∧ MemoryRetriever.init none 5 true =
      .ok { filters := none, top_k := 5, scale_score := true,
            _store := none, _store_name := none }) :=
  ⟨⟨by decide, (init_validates_top_k none (-2) true).1 (by decide)⟩,
   ⟨by decide, (init_validates_top_k none 5 true).2 (by decide)⟩⟩

/-- C5: with no store bound, every call to `run` fails with the ValueError
instructing the caller to bind a store, before any retrieval: the error branch
is taken prior to the per-query loop, so the result is the same for every
query list and carries no documents. -/
theorem run_without_store_fails (r : MemoryRetriever) (h : r._store = none)
    (queries : List String) (filters : Option Filters) (top_k : Option Int)
    (scale_score : Option Bool) :
    r.run queries filters top_k scale_score =
      .error "MemoryRetriever needs a store to run: set the store instance to the self.store attribute" := by
  simp [MemoryRetriever.run, h]

/-- Witness for C5 at a concrete store-less retriever. -/
theorem run_without_store_fails_witness :
    noStoreRetriever.run ["PHP"] none none none =
      .error "MemoryRetriever needs a store to run: set the store instance to the self.store attribute" :=
  run_without_store_fails noStoreRetriever rfl ["PHP"] none none none

/-- C9: `run` performs no validation of a per-call top_k override: for every
integer k, including k <= 0, it raises no error and passes k unchanged to the
store's retrieval for every query. -/
theorem run_top_k_override_not_validated (r : MemoryRetriever)
    (st : MemoryDocumentStore) (h : r._store = some st) (queries : List String)
    (filters : Option Filters) (scale_score : Option Bool) (k : Int) :
    r.run queries filters (some k) scale_score =
      .ok { documents := queries.map (fun q => st.bm25_retrieval q
        (effectiveFilters r filters) k (effectiveScaleScore r scale_score)) } := by
  simp [MemoryRetriever.run, h, effectiveTopK]

/-- Witness for C9 at the non-positive override top_k = -2: no error, and the
store receives -2 unchanged. -/
theorem run_top_k_override_not_validated_witness :
    boundRetriever.run ["x"] none (some (-2)) none =
      .ok { documents := [[{ content := "x", score := some (-2) }]] } :=
  (run_top_k_override_not_validated boundRetriever testStore rfl
    ["x"] none none (-2)).trans rfl

/-- C10: with a store bound, running the empty query list succeeds and returns
an empty `documents` list; the retrieval is never invoked, as witnessed by the
result being the same `.ok` record for every store `st` (it does not depend on
the store's retrieval behaviour: the per-query loop iterates zero times). -/
theorem run_empty_queries (r : MemoryRetriever) (st : MemoryDocumentStore)
    (h : r._store = some st) (filters : Option Filters) (top_k : Option Int)
    (scale_score : Option Bool) :
    r.run [] filters top_k scale_score = .ok { documents := [] } := by
  simp [MemoryRetriever.run, h]

/-- Witness for C10 at a concrete bound retriever. -/
theorem run_empty_queries_witness :
    boundRetriever.run [] none none none = .ok { documents := [] } :=
  run_empty_queries boundRetriever testStore rfl none none none

/-- C2 counterexample: a retriever with a concrete store bound AND a deferred
store name set. The claim as stated promises a behaviorally equivalent store
after the round trip, but `to_dict` serializes the name instead of the store,
so `from_dict` leaves the store unbound and the reconstructed component cannot
retrieve at all. -/
theorem roundtrip_drops_store_when_name_present :
    bothRetriever._store.isSome = true
    ∧ bothRetriever.run ["PHP"] none none none =
        .ok { documents := [[{ content := "PHP", score := some 10 }]] }
    ∧ (MemoryRetriever.from_dict (bothRetriever.to_dict 7)).map
        (fun c => c.run ["PHP"] none none none) =
      .ok (.error "MemoryRetriever needs a store to run: set the store instance to the self.store attribute") :=
  ⟨rfl, rfl, rfl⟩

/-- C2 amended: for every validly constructed retriever (top_k > 0), the round
trip preserves the effective defaults; and when no deferred store name is set,
it reproduces the full state, in particular rebinding a store with identical
retrieval behaviour when one was bound. -/
theorem from_dict_to_dict_roundtrip (r : MemoryRetriever) (hsh : Nat)
    (h1 : 0 < r.top_k) :
    (∃ c, MemoryRetriever.from_dict (r.to_dict hsh) = .ok c
        ∧ c.filters = r.filters ∧ c.top_k = r.top_k
        ∧ c.scale_score = r.scale_score)
    ∧ (r._store_name = none → MemoryRetriever.from_dict (r.to_dict hsh) = .ok r) := by
  obtain ⟨f, k, s, st?, nm?⟩ := r
  simp only [MemoryRetriever.top_k] at h1
  constructor
  · cases nm? with
    | none =>
      cases st? with
      | none =>
        exact ⟨_, by simp [MemoryRetriever.to_dict, MemoryRetriever.from_dict,
          MemoryRetriever.init, if_neg (by omega : ¬ k ≤ 0)], rfl, rfl, rfl⟩
      | some st =>
        exact ⟨_, by simp [MemoryRetriever.to_dict, MemoryRetriever.from_dict,
          MemoryRetriever.init, registry, MemoryDocumentStore.to_dict,
          if_neg (by omega : ¬ k ≤ 0)], rfl, rfl, rfl⟩
    | some n =>
      by_cases hn : n = ""
      · subst hn
        cases st? with
        | none =>
          refine ⟨{ filters := f, top_k := k, scale_score := s,
                    _store := none, _store_name := none }, ?_, rfl, rfl, rfl⟩
          simp [MemoryRetriever.to_dict, MemoryRetriever.from_dict,
            MemoryRetriever.init, if_neg (by omega : ¬ k ≤ 0)]
        | some st =>
          refine ⟨{ filters := f, top_k := k, scale_score := s,
                    _store := some st, _store_name := none }, ?_, rfl, rfl, rfl⟩
          simp [MemoryRetriever.to_dict, MemoryRetriever.from_dict,
            MemoryRetriever.init, registry, MemoryDocumentStore.to_dict,
            if_neg (by omega : ¬ k ≤ 0)]
      · refine ⟨{ filters := f, top_k := k, scale_score := s,
                  _store := none, _store_name := none }, ?_, rfl, rfl, rfl⟩
        simp [MemoryRetriever.to_dict, MemoryRetriever.from_dict,
          MemoryRetriever.init, hn, if_neg (by omega : ¬ k ≤ 0)]
  · intro h2
    simp only [MemoryRetriever._store_name] at h2
    subst h2
    cases st? with
    | none =>
      simp [MemoryRetriever.to_dict, MemoryRetriever.from_dict,
        MemoryRetriever.init, if_neg (by omega : ¬ k ≤ 0)]
    | some st =>
      simp [MemoryRetriever.to_dict, MemoryRetriever.from_dict,
        MemoryRetriever.init, registry, MemoryDocumentStore.to_dict,
        if_neg (by omega : ¬ k ≤ 0)]

/-- Witness for C2 amended at a concrete retriever with a bound store and no
deferred name: the round trip reproduces it exactly. -/
theorem from_dict_to_dict_roundtrip_witness :
    (∃ c, MemoryRetriever.from_dict (boundRetriever.to_dict 3) = .ok c
        ∧ c.filters = boundRetriever.filters ∧ c.top_k = boundRetriever.top_k
        ∧ c.scale_score = boundRetriever.scale_score)
    ∧ MemoryRetriever.from_dict (boundRetriever.to_dict 3) = .ok boundRetriever :=
  ⟨(from_dict_to_dict_roundtrip boundRetriever 3 (by decide)).1,
   (from_dict_to_dict_roundtrip boundRetriever 3 (by decide)).2 rfl⟩

/-- C6 counterexample: a retriever with a concrete store bound and a deferred
name also present. The claim says the embedded serialized form is emitted
regardless of the name, but `to_dict` emits the name: the second assignment in
the source overwrites the serialized store. -/
theorem to_dict_name_overrides_bound_store :
    bothRetriever._store.isSome = true
    ∧ bothRetriever._store_name = some "docstore"
    ∧ (bothRetriever.to_dict 7).store = .name "docstore"
    ∧ ((bothRetriever.to_dict 7).store).isSerialized = false :=
  ⟨rfl, rfl, rfl, rfl⟩

/-- C6 amended: the store field of `to_dict` is the nonempty deferred name
when one is present (taking precedence over any bound store); otherwise the
serialized form of the bound store when one is bound; otherwise null. -/
theorem to_dict_store_field_encoding (r : MemoryRetriever) (hsh : Nat) :
    (∀ n, r._store_name = some n → n ≠ "" → (r.to_dict hsh).store = .name n)
    ∧ (r._store_name = none → ∀ st, r._store = some st →
        (r.to_dict hsh).store = .serialized st.to_dict)
    ∧ (r._store_name = none → r._store = none → (r.to_dict hsh).store = .null) := by
  refine ⟨?_, ?_, ?_⟩
  · intro n hn hne
    simp [MemoryRetriever.to_dict, hn, hne]
  · intro hn st hst
    simp [MemoryRetriever.to_dict, hn, hst]
  · intro hn hst
    simp [MemoryRetriever.to_dict, hn, hst]

/-- Witness for C6 amended, one concrete retriever per case of the encoding. -/
theorem to_dict_store_field_encoding_witness :
    ((bothRetriever.to_dict 1).store = .name "docstore")
    ∧ ((boundRetriever.to_dict 1).store = .serialized testStore.to_dict)
    ∧ ((noStoreRetriever.to_dict 1).store = .null) :=
  ⟨(to_dict_store_field_encoding bothRetriever 1).1 "docstore" rfl (by decide),
   (to_dict_store_field_encoding boundRetriever 1).2.1 rfl testStore rfl,
   (to_dict_store_field_encoding noStoreRetriever 1).2.2 rfl rfl⟩

/-- C7: `from_dict` yields a deserialization error exactly when the `type`
field is absent or differs from the declared type name "MemoryRetriever"; all
other failure paths surface as constructor or lookup errors, never as a
deserialization error. -/
theorem from_dict_deserialization_error_iff (data : ComponentData) :
    isDeserializationError (MemoryRetriever.from_dict data) = true ↔
      data.type ≠ some "MemoryRetriever" := by
  obtain ⟨hs?, ty?, stf, ip?⟩ := data
  cases ty? with
  | none => simp [MemoryRetriever.from_dict, isDeserializationError]
  | some t =>
    by_cases ht : t = "MemoryRetriever"
    · subst ht
      constructor
      · intro hmem
        exfalso
        cases ip? with
        | none =>
          simp [MemoryRetriever.from_dict, isDeserializationError] at hmem
        | some p =>
          cases hi : MemoryRetriever.init p.filters p.top_k p.scale_score with
          | error msg =>
            simp [MemoryRetriever.from_dict, hi, isDeserializationError] at hmem
          | ok comp =>
            cases stf with
            | null =>
              simp [MemoryRetriever.from_dict, hi, isDeserializationError] at hmem
            | name n =>
              simp [MemoryRetriever.from_dict, hi, isDeserializationError] at hmem
            | serialized sd =>
              cases hr : registry sd.type with
              | none =>
                simp [MemoryRetriever.from_dict, hi, hr,
                  isDeserializationError] at hmem
              | some fd =>
                simp [MemoryRetriever.from_dict, hi, hr,
                  isDeserializationError] at hmem
      · intro hne
        exact absurd rfl hne
    · simp [MemoryRetriever.from_dict, ht, isDeserializationError]

/-- Witness for C7: a mismatched type name is a deserialization error. -/
theorem from_dict_deserialization_error_iff_witness :
    isDeserializationError (MemoryRetriever.from_dict
      { hash := none, type := some "OtherComponent", store := .null,
        init_parameters := none }) = true :=
  (from_dict_deserialization_error_iff
    { hash := none, type := some "OtherComponent", store := .null,
      init_parameters := none }).mpr (by decide)

/-- C8 counterexample: a retriever constructed without an explicit filters
argument (the Python default, `None`) records `None`, not the empty mapping,
as its default filters value. -/
theorem default_construction_filters_not_empty_mapping :
    (MemoryRetriever.init none 10 true).map (fun r => r.filters) = .ok none
    ∧ (MemoryRetriever.init none 10 true).map (fun r => r.filters) ≠
        .ok (some ([] : Filters)) := by
  refine ⟨rfl, ?_⟩
  intro h
  rw [show (MemoryRetriever.init none 10 true).map (fun r => r.filters) =
    .ok none from rfl] at h
  exact Option.noConfusion (Except.ok.inj h)

/-- C8 amended: constructed without an explicit filters argument, the default
filters value is None (the absence of filters), which is what `run` then
passes to the store when no per-call override is given. -/
theorem default_construction_filters_is_none :
    (MemoryRetriever.init none 10 true).map (fun r => r.filters) = .ok none :=
  rfl
